import Mathlib

/-!
Verification of the pdf-rag-mcp-server document lifecycle and tool protocol
surface.  The definitions below are a shallow embedding of the Python sources
src/upload_pdf.py and src/backend/app/mcp_server.py: Python strings become
Lean String, the SQLAlchemy table of PDFDocument rows becomes a list of
records in insertion order, the uploads directory becomes an association list
from paths to file contents, and the two external engines (vector search and
PDF processing) become explicit parameters.
-/

deriving instance DecidableEq for Except

namespace PdfRag

/-- Embeds the PDFDocument row of backend/app/database.py as used by the
sources: fields filename, file_path, file_size, page_count, chunks_count,
uploaded_at, processing, processed, and the integer primary key id.
Counts not yet set by the processing engine are 0 (the column default);
the upload timestamp is an opaque string rendered verbatim. -/
structure PDFDocument where
  id : Nat
  filename : String
  file_path : String
  file_size : Nat
  page_count : Nat
  chunks_count : Nat
  uploaded_at : String
  processing : Bool
  processed : Bool
deriving DecidableEq, Repr

/-- The document table, in insertion order (query.all() returns rows in this
order for the SQLite store). -/
abbrev Store := List PDFDocument

/- ------------------------------------------------------------------
   backend/app/mcp_server.py : resources
   ------------------------------------------------------------------ -/

/-- Embeds the mcp.types.Resource values built by handle_list_resources. -/
structure MCPResource where
  uri : String
  name : String
  description : String
  mimeType : String
deriving DecidableEq, Repr

/-- Embeds handle_list_resources: one Resource per row with processed == True,
with uri pdf://FILENAME. -/
def handle_list_resources (db : Store) : List MCPResource :=
  (db.filter (fun d => d.processed)).map fun d =>
    { uri := ("pdf://") ++ d.filename
      name := d.filename
      description := ("PDF document: ") ++ d.filename
      mimeType := ("application/pdf") }

/-- The two distinct raise sites of handle_read_resource: ValueError with an
unsupported-scheme message, and ValueError with a document-not-found
message. -/
inductive ResourceError where
  | unsupportedScheme (uri : String)
  | notFound (filename : String)
deriving DecidableEq, Repr

/-- Embeds the content_parts summary returned by handle_read_resource
(the parts joined with newlines). -/
def read_summary (d : PDFDocument) : String :=
  ("Document: ") ++ d.filename ++
  ("\nPages: ") ++ toString d.page_count ++
  ("\nStatus: Processed") ++
  ("\nUpload Date: ") ++ d.uploaded_at ++
  ("\nFile Size: ") ++ toString d.file_size ++ (" bytes")

/-- Embeds handle_read_resource: the Python test uri.startswith("pdf://") is
rendered as equality of the first six characters, uri[6:] as dropping six
characters, and the filtered query with .first() as List.find?. -/
def handle_read_resource (db : Store) (uri : String) : Except ResourceError String :=
  if uri.data.take 6 = ("pdf://").data then
    let filename : String := ⟨uri.data.drop 6⟩
    match db.find? (fun d => d.filename == filename && d.processed) with
    | some d => .ok (read_summary d)
    | none => .error (.notFound filename)
  else
    .error (.unsupportedScheme uri)

/- ------------------------------------------------------------------
   backend/app/mcp_server.py : tools
   ------------------------------------------------------------------ -/

/-- Embeds the arguments dictionary of handle_call_tool; a missing key is
none, matching arguments.get with a default. -/
structure ToolArgs where
  query : Option String := none
  limit : Option Nat := none
  filename : Option String := none
deriving DecidableEq, Repr

/-- Embeds one element of the result list of vector_store.search: the content
string and the already-rendered relevance score (result.get with default
produces the string N/A when the score is absent). -/
structure SearchResult where
  content : String
  distance : Option String
deriving DecidableEq, Repr

/-- The external semantic search engine vector_store.search, a collaborator
outside this repository; an error value models the engine raising. -/
abbrev SearchEngine := String → Nat → Except String (List SearchResult)

/-- Status text as computed in the list_documents branch of
handle_call_tool. -/
def list_status_text (d : PDFDocument) : String :=
  if d.processed then ("completed") else if d.processing then ("processing") else ("failed")

/-- Status emoji as computed in the list_documents branch of
handle_call_tool. -/
def list_status_emoji (d : PDFDocument) : String :=
  if d.processed then ("✅") else if d.processing then ("⏳") else ("❌")

/-- Status text as computed in the get_document_info branch of
handle_call_tool. -/
def info_status_text (d : PDFDocument) : String :=
  if d.processed then ("completed") else if d.processing then ("processing") else ("failed")

/-- The per-document block appended by the loop in the list_documents
branch. -/
def doc_line (d : PDFDocument) : String :=
  list_status_emoji d ++ (" ") ++ d.filename ++
  ("\n   Status: ") ++ list_status_text d ++
  ("\n   Upload Date: ") ++ d.uploaded_at ++
  ("\n   File Size: ") ++ toString d.file_size ++ (" bytes\n\n")

/-- Embeds the list_documents branch: the empty-store message, or the header
followed by one block per row. -/
def list_documents_text (db : Store) : String :=
  if db.isEmpty then ("No documents found in the knowledge base.")
  else ("Available documents in the knowledge base:\n\n") ++ String.join (db.map doc_line)

/-- Readiness sentence appended when processed and chunk count positive. -/
def ready_text (n : Nat) : String :=
  ("\nDocument is ready for searching and contains ") ++ toString n ++ (" searchable chunks.")

/-- Sentence appended while the document is still processing. -/
def processing_note : String := ("\nDocument is currently being processed.")

/-- Sentence appended when processing appears to have failed. -/
def failed_note : String := ("\nDocument processing may have failed or is incomplete.")

/-- The trailing readiness statement of the get_document_info branch. -/
def info_tail (d : PDFDocument) : String :=
  if d.processed && decide (0 < d.chunks_count) then ready_text d.chunks_count
  else if d.processing then processing_note
  else failed_note

/-- The full response of the get_document_info branch for a found row. -/
def document_info_text (d : PDFDocument) : String :=
  ("Document Information: ") ++ d.filename ++
  ("\n\nStatus: ") ++ info_status_text d ++
  ("\nUpload Date: ") ++ d.uploaded_at ++
  ("\nFile Size: ") ++ toString d.file_size ++ (" bytes") ++
  ("\nNumber of Chunks: ") ++ toString d.chunks_count ++
  ("\nPage Count: ") ++ toString d.page_count ++
  ("\nFile Path: ") ++ d.file_path ++ ("\n") ++
  info_tail d

/-- One formatted result block of the search_documents branch (i counts
from 1). -/
def result_block (i : Nat) (r : SearchResult) : String :=
  ("\n--- Result ") ++ toString i ++ (" ---\nRelevance Score: ") ++
  (r.distance.getD ("N/A")) ++ ("\nContent:\n") ++ r.content ++ ("\n")

/-- The joined response of the search_documents branch on a non-empty result
list. -/
def search_response (q : String) (results : List SearchResult) : String :=
  ("Found ") ++ toString results.length ++ (" relevant results for query: '") ++ q ++ ("'\n") ++
  String.join ((List.enumFrom 1 results).map fun p => result_block p.1 p.2)

/-- Embeds handle_call_tool of backend/app/mcp_server.py.  Each returned
string is the text of one TextContent block; Python truthiness of a possibly
missing string argument is the equality test against the empty string after
arguments.get, and the try/except around the search engine is the match on
the engine result. -/
def handle_call_tool (db : Store) (search : SearchEngine)
    (name : String) (args : ToolArgs) : List String :=
  if name == ("search_documents") then
    let query := args.query.getD ("")
    let lim := args.limit.getD 5
    if query == ("") then [("Error: Query is required")]
    else
      match search query lim with
      | .error e => [("Error performing search: ") ++ e]
      | .ok [] => [("No relevant documents found for your query.")]
      | .ok results => [search_response query results]
  else if name == ("list_documents") then
    [list_documents_text db]
  else if name == ("get_document_info") then
    let filename := args.filename.getD ("")
    if filename == ("") then [("Error: Filename is required")]
    else
      match db.find? (fun d => d.filename == filename) with
      | none => [("Document '") ++ filename ++ ("' not found.")]
      | some d => [document_info_text d]
  else
    [("Unknown tool: ") ++ name]

/- ------------------------------------------------------------------
   upload_pdf.py : the CLI ingestion path
   ------------------------------------------------------------------ -/

/-- The visible file system, an association list from paths to file
contents; os.path.getsize is the content length. -/
abbrev FileSys := List (String × String)

/-- Embeds os.path.exists plus reading: the content stored at a path. -/
def fsLookup (fs : FileSys) (p : String) : Option String :=
  (fs.find? (fun e => e.1 == p)).map (fun e => e.2)

/-- Embeds shutil.copy2 writing its destination: the destination path now
holds the source content, overwriting any previous file at that path. -/
def fsWrite (fs : FileSys) (p c : String) : FileSys :=
  (p, c) :: fs.filter (fun e => e.1 != p)

/-- Embeds os.path.basename for the slash-separated paths the script
handles: the longest suffix without a separator. -/
def basename (p : String) : String :=
  ⟨(p.data.reverse.takeWhile (fun c => c ≠ '/')).reverse⟩

/-- Embeds the Python str.lower method as the character-wise ASCII lowering
of the underlying character list. -/
def str_lower (s : String) : String := ⟨s.data.map Char.toLower⟩

/-- Embeds the validation pdf_path.lower().endswith with suffix .pdf. -/
def is_pdf_path (p : String) : Bool :=
  (".pdf").data.isSuffixOf (str_lower p).data

/-- The uploads directory created by PDFUploader.__init__. -/
def uploads_dir : String := ("backend/uploads")

/-- Embeds os.path.join(self.uploads_dir, filename). -/
def dest_path (fname : String) : String := uploads_dir ++ ("/") ++ fname

/-- Combined store-and-file-system state threaded through an ingestion. -/
structure SysState where
  db : Store
  fs : FileSys
deriving DecidableEq, Repr

/-- The outcome of one run of the external processing engine invoked at
step 6 of an ingestion: it either reports page and chunk counts or
raises. -/
inductive EngineOutcome where
  | success (page_count chunks_count : Nat)
  | failure
deriving DecidableEq, Repr

/-- The distinct exit paths of PDFUploader.upload_and_process_pdf.  The
False return after the cancelled confirmation prompt is the
already-exists abort of the spec; ok is the True return. -/
inductive UploadResult where
  | fileNotFound
  | notPdf
  | alreadyExists
  | ok
  | processingFailed
deriving DecidableEq, Repr

/-- Inputs of one CLI ingestion run: the command-line path, the reply typed
at the reprocess prompt, the behaviour of the external processing engine on
this run, and the store-assigned upload timestamp. -/
structure UploadInput where
  pdf_path : String
  response : String
  engine : EngineOutcome
  now : String
deriving DecidableEq, Repr

/-- Modelled from the spec: the state transition performed when the external
processing engine finishes.  The engine pdf_processor.process_pdf invoked by
PDFUploader._process_pdf_async is code of this repository that is not under
src/; per spec section 4.2 steps 7 and 8, success marks the record processed
(processing=false, processed=true, page and chunk counts set) and failure
leaves the failed terminal state processing=false, processed=false. -/
def applyEngine (db : Store) (id : Nat) (o : EngineOutcome) : Store :=
  db.map fun d =>
    if d.id == id then
      match o with
      | .success pc cc =>
        { d with processing := false, processed := true, page_count := pc, chunks_count := cc }
      | .failure => { d with processing := false, processed := false }
    else d

/-- The autoincrement primary key assigned to the next inserted row: larger
than every id in the table. -/
def next_id (db : Store) : Nat :=
  db.foldr (fun d m => max d.id m) 0 + 1

/-- Embeds the PDFDocument(...) constructor call of
upload_and_process_pdf: processing=True, processed=False, counts at their
column default. -/
def new_document (id : Nat) (fname dest : String) (size : Nat) (now : String) : PDFDocument :=
  { id := id, filename := fname, file_path := dest, file_size := size
    page_count := 0, chunks_count := 0, uploaded_at := now
    processing := true, processed := false }

/-- Embeds the duplicate-filename check of upload_and_process_pdf: the
filtered query with .first(), the reprocess prompt (none is the cancelled
return), and on confirmation db.delete of the found row followed by
commit.  Only the database is touched; the file system is not passed in
because this step performs no file operation. -/
def dup_step (st : SysState) (fname response : String) : Option SysState :=
  match st.db.find? (fun d => d.filename == fname) with
  | none => some st
  | some _ =>
    if str_lower response == ("y") then
      some { st with db := st.db.eraseP (fun d => d.filename == fname) }
    else none

/-- Embeds shutil.copy2 into the uploads directory. -/
def copy_step (st : SysState) (content dest : String) : SysState :=
  { st with fs := fsWrite st.fs dest content }

/-- Embeds db.add followed by commit: the new row is appended to the
table. -/
def create_step (st : SysState) (d : PDFDocument) : SysState :=
  { st with db := st.db ++ [d] }

/-- The state reached by upload_and_process_pdf just before the engine is
awaited: file copied, record created in processing state.  Returns the
state and the id of the created record. -/
def pre_engine (st1 : SysState) (fname content now : String) : SysState × Nat :=
  let st2 := copy_step st1 content (dest_path fname)
  let doc := new_document (next_id st2.db) fname (dest_path fname) content.length now
  (create_step st2 doc, doc.id)

/-- Embeds PDFUploader.upload_and_process_pdf together with
_process_pdf_async: validation, duplicate handling, copy, record creation,
then the awaited engine invocation whose exception is caught and turned
into the False return (the record transition at engine completion is
applyEngine, see its comment). -/
def upload_and_process_pdf (inp : UploadInput) (st : SysState) : UploadResult × SysState :=
  match fsLookup st.fs inp.pdf_path with
  | none => (.fileNotFound, st)
  | some content =>
    if is_pdf_path inp.pdf_path = false then (.notPdf, st)
    else
      let fname := basename inp.pdf_path
      match dup_step st fname inp.response with
      | none => (.alreadyExists, st)
      | some st1 =>
        let p := pre_engine st1 fname content inp.now
        match inp.engine with
        | .success pc cc => (.ok, { p.1 with db := applyEngine p.1.db p.2 (.success pc cc) })
        | .failure => (.processingFailed, { p.1 with db := applyEngine p.1.db p.2 .failure })

/- ------------------------------------------------------------------
   Invariants of the store
   ------------------------------------------------------------------ -/

/-- Invariant of spec section 8: no row has processing and processed set
simultaneously. -/
def flags_ok (db : Store) : Prop :=
  ∀ d ∈ db, ¬(d.processing = true ∧ d.processed = true)

/-- Invariant of spec section 8: at most one live row per filename. -/
def unique_filenames (db : Store) : Prop :=
  ∀ f : String, db.countP (fun d => d.filename == f) ≤ 1

/- ------------------------------------------------------------------
   Concrete states used by witnesses and counterexamples
   ------------------------------------------------------------------ -/

/-- Concrete processed record used by witnesses. -/
def exDocDone : PDFDocument :=
  { id := 1, filename := ("report.pdf"), file_path := ("backend/uploads/report.pdf")
    file_size := 1024, page_count := 10, chunks_count := 42, uploaded_at := ("T1")
    processing := false, processed := true }

/-- Concrete record still in processing state. -/
def exDocBusy : PDFDocument :=
  { id := 2, filename := ("draft.pdf"), file_path := ("backend/uploads/draft.pdf")
    file_size := 64, page_count := 0, chunks_count := 0, uploaded_at := ("T2")
    processing := true, processed := false }

/-- Concrete store with the two records above. -/
def exDb : Store := [exDocDone, exDocBusy]

/-- Concrete completed record for a previously ingested a.pdf whose backing
file sits at its destination path. -/
def exOldDoc : PDFDocument :=
  { id := 1, filename := ("a.pdf"), file_path := dest_path ("a.pdf")
    file_size := 3, page_count := 2, chunks_count := 5, uploaded_at := ("D0")
    processing := false, processed := true }

/-- Concrete file system holding the old backing file and a new source
file for the same filename. -/
def exFsOld : FileSys :=
  [(("incoming/a.pdf"), ("NEW")), ((dest_path ("a.pdf")), ("OLD"))]

/-- Concrete state with one live record for a.pdf and its backing file. -/
def exStDup : SysState := { db := [exOldDoc], fs := exFsOld }

/-- Concrete re-ingestion input for a.pdf with the prompt confirmed. -/
def exInpRepl : UploadInput :=
  { pdf_path := ("incoming/a.pdf"), response := ("y"), engine := .success 2 5, now := ("D1") }

/-- Concrete ingestion input whose engine run raises. -/
def exInpFail : UploadInput :=
  { pdf_path := ("docs/bad.pdf"), response := (""), engine := .failure, now := ("T9") }

/-- Concrete initial state with an empty store and one source file. -/
def exStEmpty : SysState := { db := [], fs := [(("docs/bad.pdf"), ("BAD"))] }

/- ------------------------------------------------------------------
   Helper lemmas
   ------------------------------------------------------------------ -/

theorem data_foldl_append (l : List String) :
    ∀ a : String, (l.foldl (fun r s => r ++ s) a).data = a.data ++ (l.map String.data).flatten := by
  induction l with
  | nil => intro a; simp
  | cons x xs ih => intro a; simp [List.foldl_cons, ih, List.append_assoc]

theorem data_join (l : List String) : (String.join l).data = (l.map String.data).flatten := by
  simpa [String.join] using data_foldl_append l ("")

theorem doc_line_infix_of_mem {db : Store} {d : PDFDocument} (hd : d ∈ db) :
    List.IsInfix (doc_line d).data (list_documents_text db).data := by
  obtain ⟨s, t, rfl⟩ := List.append_of_mem hd
  have hne : (s ++ d :: t).isEmpty = false := by
    simp [List.isEmpty_iff]
  rw [list_documents_text, hne]
  simp only [Bool.false_eq_true, if_false, String.data_append, data_join, List.map_append,
    List.map_cons, List.flatten_append, List.flatten_cons]
  exact ⟨("Available documents in the knowledge base:\n\n").data ++
      ((s.map doc_line).map String.data).flatten,
    ((t.map doc_line).map String.data).flatten, by simp [List.append_assoc]⟩

theorem ready_text_ne_processing_note (n : Nat) : ready_text n ≠ processing_note := by
  intro h
  have h13 := congrArg (fun s => s.data[13]?) h
  simp only [ready_text, processing_note, String.data_append, List.append_assoc] at h13
  rw [List.getElem?_append_left (by decide)] at h13
  exact absurd h13 (by decide)

theorem ready_text_ne_failed_note (n : Nat) : ready_text n ≠ failed_note := by
  intro h
  have h10 := congrArg (fun s => s.data[10]?) h
  simp only [ready_text, failed_note, String.data_append, List.append_assoc] at h10
  rw [List.getElem?_append_left (by decide)] at h10
  exact absurd h10 (by decide)

/- ------------------------------------------------------------------
   Claim theorems
   ------------------------------------------------------------------ -/

/-- C10: when the store contains no Document records at all, the
list_documents tool returns the literal text
No documents found in the knowledge base. -/
theorem c10_empty_store_message (search : SearchEngine) (args : ToolArgs) :
    handle_call_tool [] search ("list_documents") args
      = [("No documents found in the knowledge base.")] := rfl

/-- C7: both list_documents and get_document_info derive the status of a
record as completed when processed, processing when not processed but
processing, and failed otherwise; and get_document_info appends the
readiness statement exactly when processed with a positive chunk count, the
processing statement when in progress, and the failed statement
otherwise. -/
theorem c7_status_and_readiness (d : PDFDocument) :
    list_status_text d = info_status_text d
  ∧ (list_status_text d = ("completed") ↔ d.processed = true)
  ∧ (list_status_text d = ("processing") ↔ (d.processed = false ∧ d.processing = true))
  ∧ (list_status_text d = ("failed") ↔ (d.processed = false ∧ d.processing = false))
  ∧ (info_tail d = ready_text d.chunks_count ↔ (d.processed = true ∧ 0 < d.chunks_count))
  ∧ (info_tail d = processing_note ↔
      (¬(d.processed = true ∧ 0 < d.chunks_count) ∧ d.processing = true))
  ∧ (info_tail d = failed_note ↔
      (¬(d.processed = true ∧ 0 < d.chunks_count) ∧ d.processing = false)) := by
  refine ⟨rfl, ?_, ?_, ?_, ?_, ?_, ?_⟩ <;>
    cases hp : d.processed <;> cases hpr : d.processing <;>
      rcases Nat.eq_zero_or_pos d.chunks_count with hc | hc <;>
        (try simp [list_status_text, info_status_text, info_tail, hp, hpr, hc,
          Nat.pos_iff_ne_zero, ready_text_ne_processing_note, ready_text_ne_failed_note,
          (ready_text_ne_processing_note d.chunks_count).symm,
          (ready_text_ne_failed_note d.chunks_count).symm]) <;>
        decide

/-- C7 witness: the status and readiness derivation evaluated on a concrete
completed record with 42 chunks. -/
theorem c7_status_and_readiness_witness :
    list_status_text
        { id := 1, filename := ("report.pdf"), file_path := ("backend/uploads/report.pdf")
          file_size := 1024, page_count := 10, chunks_count := 42, uploaded_at := ("T1")
          processing := false, processed := true } = ("completed") :=
  (c7_status_and_readiness _).2.1.mpr (by decide)

/-- C5: the tool adapter returns exactly one textual content block on every
input, and an unrecognised tool name yields a user-visible unknown-tool
message rather than a protocol-level fault. -/
theorem c5_adapter_never_raises (db : Store) (search : SearchEngine)
    (name : String) (args : ToolArgs) :
    (∃ t : String, handle_call_tool db search name args = [t])
  ∧ (name ≠ ("search_documents") → name ≠ ("list_documents") →
      name ≠ ("get_document_info") →
      handle_call_tool db search name args = [("Unknown tool: ") ++ name])
  ∧ (∀ q e, args.query = some q → q ≠ ("") → search q (args.limit.getD 5) = .error e →
      handle_call_tool db search ("search_documents") args
        = [("Error performing search: ") ++ e]) := by
  refine ⟨?_, ?_, ?_⟩
  · unfold handle_call_tool
    dsimp only
    repeat' split
    all_goals exact ⟨_, rfl⟩
  · intro h1 h2 h3
    simp [handle_call_tool, beq_iff_eq, h1, h2, h3]
  · intro q e hq hne hs
    have hb : (q == ("")) = false := beq_eq_false_iff_ne.mpr hne
    simp [handle_call_tool, hq, hb, hs]

/-- C5 witness: an unrecognised tool name on a concrete store yields the
unknown-tool message. -/
theorem c5_adapter_never_raises_witness :
    handle_call_tool [] (fun _ _ => .ok []) ("frobnicate") {}
      = [("Unknown tool: ") ++ ("frobnicate")]
  ∧ handle_call_tool [] (fun _ _ => .error ("boom")) ("search_documents")
      { query := some ("x") } = [("Error performing search: ") ++ ("boom")] :=
  ⟨(c5_adapter_never_raises [] (fun _ _ => .ok []) ("frobnicate") {}).2.1
      (by decide) (by decide) (by decide),
    (c5_adapter_never_raises [] (fun _ _ => .error ("boom")) ("search_documents")
      { query := some ("x") }).2.2 ("x") ("boom") rfl (by decide) rfl⟩

/-- C6: a search_documents call whose query argument is absent or empty
returns the literal text Error: Query is required, and the result does not
depend on the external search engine, which is therefore never invoked. -/
theorem c6_empty_query_rejected (db : Store) (search : SearchEngine) (args : ToolArgs)
    (h : args.query = none ∨ args.query = some ("")) :
    handle_call_tool db search ("search_documents") args = [("Error: Query is required")]
  ∧ ∀ search2 : SearchEngine,
      handle_call_tool db search ("search_documents") args
        = handle_call_tool db search2 ("search_documents") args := by
  have hq : args.query.getD ("") = ("") := by rcases h with h | h <;> simp [h]
  constructor
  · simp [handle_call_tool, hq]
  · intro s2
    simp [handle_call_tool, hq]

/-- C6 witness: the empty-query rejection evaluated with the query argument
absent on a concrete store and engine. -/
theorem c6_empty_query_rejected_witness :
    handle_call_tool [] (fun _ _ => .ok []) ("search_documents") {}
      = [("Error: Query is required")] :=
  (c6_empty_query_rejected [] (fun _ _ => .ok []) {} (Or.inl rfl)).1

theorem read_resource_pdf_uri (db : Store) (f : String) :
    handle_read_resource db (("pdf://") ++ f)
      = match db.find? (fun d => d.filename == f && d.processed) with
        | some d => Except.ok (read_summary d)
        | none => Except.error (ResourceError.notFound f) := rfl

/-- C4: list_resources exposes exactly one pdf scheme handle per processed
record; read_resource on a pdf uri succeeds with the metadata summary
exactly when the named record exists and is processed, fails with the
unsupported-scheme error when the uri does not start with the pdf scheme,
and with the not-found error when no processed record carries the
filename. -/
theorem c4_resources_roundtrip (db : Store) :
    (handle_list_resources db).length = (db.filter (fun d => d.processed)).length
  ∧ (handle_list_resources db).map MCPResource.uri
      = (db.filter (fun d => d.processed)).map (fun d => ("pdf://") ++ d.filename)
  ∧ (∀ f : String,
      ((∃ s, handle_read_resource db (("pdf://") ++ f) = .ok s)
        ↔ ∃ d ∈ db, d.filename = f ∧ d.processed = true))
  ∧ (∀ uri : String, uri.data.take 6 ≠ ("pdf://").data →
      handle_read_resource db uri = .error (.unsupportedScheme uri))
  ∧ (∀ f : String, (∀ d ∈ db, ¬(d.filename = f ∧ d.processed = true)) →
      handle_read_resource db (("pdf://") ++ f) = .error (.notFound f)) := by
  refine ⟨?_, ?_, ?_, ?_, ?_⟩
  · simp [handle_list_resources]
  · simp [handle_list_resources, List.map_map, Function.comp]
  · intro f
    rw [read_resource_pdf_uri]
    rcases hfind : db.find? (fun d => d.filename == f && d.processed) with _ | d
    · rw [hfind]
      rw [List.find?_eq_none] at hfind
      simp only [Bool.and_eq_true, beq_iff_eq, not_and] at hfind
      constructor
      · rintro ⟨s, hs⟩
        exact Except.noConfusion hs
      · rintro ⟨d, hd, h1, h2⟩
        exact absurd h2 (by simpa using hfind d hd h1)
    · rw [hfind]
      have hd := List.mem_of_find?_eq_some hfind
      have hp := List.find?_some hfind
      simp only [Bool.and_eq_true, beq_iff_eq] at hp
      exact iff_of_true ⟨_, rfl⟩ ⟨d, hd, hp.1, hp.2⟩
  · intro uri h
    unfold handle_read_resource
    rw [if_neg h]
  · intro f h
    rw [read_resource_pdf_uri]
    have hnone : db.find? (fun d => d.filename == f && d.processed) = none := by
      rw [List.find?_eq_none]
      intro d hd
      simp only [Bool.and_eq_true, beq_iff_eq, not_and]
      intro h1 h2
      exact h d hd ⟨h1, by simpa using h2⟩
    rw [hnone]

/-- C4 witness: on the concrete store, reading the processed record
succeeds, an http uri fails with the unsupported-scheme error, and a
missing filename fails with the not-found error. -/
theorem c4_resources_roundtrip_witness :
    (∃ s, handle_read_resource exDb (("pdf://") ++ ("report.pdf")) = .ok s)
  ∧ handle_read_resource exDb ("http://x") = .error (.unsupportedScheme ("http://x"))
  ∧ handle_read_resource exDb (("pdf://") ++ ("missing.pdf")) = .error (.notFound ("missing.pdf")) :=
  ⟨((c4_resources_roundtrip exDb).2.2.1 ("report.pdf")).mpr
      ⟨exDocDone, by decide, by decide, by decide⟩,
    (c4_resources_roundtrip exDb).2.2.2.1 ("http://x") (by decide),
    (c4_resources_roundtrip exDb).2.2.2.2 ("missing.pdf") (by decide)⟩

theorem dup_step_cases {st : SysState} {fname response : String} {st1 : SysState}
    (h : dup_step st fname response = some st1) :
    st1.fs = st.fs
    ∧ (st1.db = st.db ∨ st1.db = st.db.eraseP (fun d => d.filename == fname)) := by
  unfold dup_step at h
  rcases hfind : st.db.find? (fun d => d.filename == fname) with _ | d <;>
    simp only [hfind] at h
  · obtain rfl := Option.some.inj h
    exact ⟨rfl, Or.inl rfl⟩
  · by_cases hy : (str_lower response == ("y")) = true
    · rw [if_pos hy] at h
      obtain rfl := Option.some.inj h
      exact ⟨rfl, Or.inr rfl⟩
    · rw [if_neg hy] at h
      cases h

theorem flags_ok_applyEngine {db : Store} (h : flags_ok db) (i : Nat) (o : EngineOutcome) :
    flags_ok (applyEngine db i o) := by
  intro d' hd'
  rw [applyEngine, List.mem_map] at hd'
  obtain ⟨d, hd, rfl⟩ := hd'
  by_cases hid : (d.id == i) = true
  · cases o <;> simp [hid]
  · simp only [hid, Bool.false_eq_true, if_false]
    exact h d hd

theorem countP_applyEngine (db : Store) (i : Nat) (o : EngineOutcome) (f : String) :
    (applyEngine db i o).countP (fun d => d.filename == f)
      = db.countP (fun d => d.filename == f) := by
  unfold applyEngine
  rw [List.countP_map]
  apply List.countP_congr
  intro d _
  by_cases hid : (d.id == i) = true <;> cases o <;> simp [Function.comp, hid]

theorem countP_eraseP_self {α : Type} (p : α → Bool) (l : List α) (h : l.any p = true) :
    (l.eraseP p).countP p + 1 = l.countP p := by
  induction l with
  | nil => cases h
  | cons a l ih =>
    by_cases pa : p a = true
    · rw [List.eraseP_cons_of_pos pa, List.countP_cons_of_pos _ _ pa]
    · rw [List.eraseP_cons_of_neg (by simp [pa]), List.countP_cons_of_neg _ _ (by simp [pa]),
        List.countP_cons_of_neg _ _ (by simp [pa])]
      apply ih
      rcases List.any_eq_true.mp h with ⟨x, hx, hpx⟩
      rcases List.mem_cons.mp hx with rfl | hx
      · exact absurd hpx pa
      · exact List.any_eq_true.mpr ⟨x, hx, hpx⟩

theorem dup_step_clears_filename {st : SysState} {fname response : String} {st1 : SysState}
    (hinv : unique_filenames st.db)
    (h : dup_step st fname response = some st1) :
    st1.db.countP (fun d => d.filename == fname) = 0 := by
  unfold dup_step at h
  rcases hfind : st.db.find? (fun d => d.filename == fname) with _ | d <;>
    simp only [hfind] at h
  · obtain rfl := Option.some.inj h
    rw [List.find?_eq_none] at hfind
    exact List.countP_eq_zero.mpr hfind
  · by_cases hy : (str_lower response == ("y")) = true
    · rw [if_pos hy] at h
      obtain rfl := Option.some.inj h
      show (st.db.eraseP (fun d => d.filename == fname)).countP
        (fun d => d.filename == fname) = 0
      have hp := List.find?_some hfind
      have hany : st.db.any (fun x => x.filename == fname) = true :=
        List.any_eq_true.mpr ⟨d, List.mem_of_find?_eq_some hfind, hp⟩
      have h1 := countP_eraseP_self (fun x => x.filename == fname) st.db hany
      have h2 := hinv fname
      omega
    · rw [if_neg hy] at h
      cases h

theorem new_document_filename (id : Nat) (fname dest : String) (size : Nat) (now : String) :
    (new_document id fname dest size now).filename = fname := rfl

/-- C3: ingesting a filename that already has a live record, with the
reprocess prompt not confirmed, aborts through the already-exists exit and
leaves the store and the file system exactly as they were. -/
theorem c3_no_confirm_aborts (inp : UploadInput) (st : SysState)
    (d : PDFDocument) (content : String)
    (hfs : fsLookup st.fs inp.pdf_path = some content)
    (hpdf : is_pdf_path inp.pdf_path = true)
    (hex : st.db.find? (fun x => x.filename == basename inp.pdf_path) = some d)
    (hresp : str_lower inp.response ≠ ("y")) :
    upload_and_process_pdf inp st = (.alreadyExists, st) := by
  have hbeq : (str_lower inp.response == ("y")) = false := beq_eq_false_iff_ne.mpr hresp
  simp [upload_and_process_pdf, hfs, hpdf, dup_step, hex, hbeq]

/-- C3 witness: a second ingestion of a.pdf answered with n leaves the
concrete duplicate state untouched and reports the conflict. -/
theorem c3_no_confirm_aborts_witness :
    upload_and_process_pdf
        { pdf_path := ("incoming/a.pdf"), response := ("n")
          engine := .success 2 5, now := ("D1") } exStDup
      = (.alreadyExists, exStDup) :=
  c3_no_confirm_aborts _ _ exOldDoc ("NEW") (by decide) (by decide) (by decide) (by decide)

/-- C9: no reachable operation ever leaves a record with processing and
processed both true: the invariant is preserved by a whole ingestion run
(record creation, engine success and engine failure included), and record
creation itself sets processing true and processed false. -/
theorem c9_flags_invariant (inp : UploadInput) (st : SysState) (hinv : flags_ok st.db) :
    flags_ok (upload_and_process_pdf inp st).2.db
  ∧ ∀ (id : Nat) (fname dest : String) (size : Nat) (now : String),
      (new_document id fname dest size now).processing = true
      ∧ (new_document id fname dest size now).processed = false := by
  refine ⟨?_, fun _ _ _ _ _ => ⟨rfl, rfl⟩⟩
  unfold upload_and_process_pdf
  rcases hfs : fsLookup st.fs inp.pdf_path with _ | content
  · exact hinv
  · dsimp only
    by_cases hpdf : is_pdf_path inp.pdf_path = false
    · rw [if_pos hpdf]
      exact hinv
    · rw [if_neg hpdf]
      rcases hdup : dup_step st (basename inp.pdf_path) inp.response with _ | st1
      · exact hinv
      · have hst1 : flags_ok st1.db := by
          rcases (dup_step_cases hdup).2 with h | h
          · rw [h]; exact hinv
          · rw [h]
            intro d hd
            exact hinv d (List.eraseP_subset _ hd)
        have hpre : flags_ok (st1.db ++
            [new_document (next_id st1.db) (basename inp.pdf_path)
              (dest_path (basename inp.pdf_path)) content.length inp.now]) := by
          intro d hd
          rcases List.mem_append.mp hd with hd | hd
          · exact hst1 d hd
          · rcases List.mem_singleton.mp hd with rfl
            simp [new_document]
        rcases heng : inp.engine with ⟨pc, cc⟩ | _ <;> dsimp only
        · exact flags_ok_applyEngine hpre
            (pre_engine st1 (basename inp.pdf_path) content inp.now).2 (.success pc cc)
        · exact flags_ok_applyEngine hpre
            (pre_engine st1 (basename inp.pdf_path) content inp.now).2 .failure

/-- C9 witness: the invariant evaluated across the concrete failing
ingestion, and the creation flags of a concrete new record. -/
theorem c9_flags_invariant_witness :
    flags_ok (upload_and_process_pdf exInpFail exStEmpty).2.db
  ∧ (new_document 5 ("a.pdf") ("backend/uploads/a.pdf") 3 ("T")).processing = true :=
  ⟨(c9_flags_invariant exInpFail exStEmpty (by intro d hd; cases hd)).1,
    ((c9_flags_invariant exInpFail exStEmpty (by intro d hd; cases hd)).2
      5 ("a.pdf") ("backend/uploads/a.pdf") 3 ("T")).1⟩

/-- C8: at most one live record per filename, preserved by a whole
ingestion run; the duplicate check and record creation act as a unit, the
store holding no record for the filename at the instant between the
check-and-delete step and the creation of the replacement. -/
theorem c8_unique_filenames (inp : UploadInput) (st : SysState)
    (hinv : unique_filenames st.db) :
    unique_filenames (upload_and_process_pdf inp st).2.db
  ∧ (∀ st1, dup_step st (basename inp.pdf_path) inp.response = some st1 →
      st1.db.countP (fun d => d.filename == basename inp.pdf_path) = 0) := by
  refine ⟨?_, fun st1 h => dup_step_clears_filename hinv h⟩
  unfold upload_and_process_pdf
  rcases hfs : fsLookup st.fs inp.pdf_path with _ | content
  · exact hinv
  · dsimp only
    by_cases hpdf : is_pdf_path inp.pdf_path = false
    · rw [if_pos hpdf]
      exact hinv
    · rw [if_neg hpdf]
      rcases hdup : dup_step st (basename inp.pdf_path) inp.response with _ | st1
      · exact hinv
      · have hst1 : ∀ f : String,
            st1.db.countP (fun d => d.filename == f) ≤ st.db.countP (fun d => d.filename == f) := by
          intro f
          rcases (dup_step_cases hdup).2 with h | h
          · rw [h]
          · rw [h]
            exact (List.eraseP_sublist _).countP_le _
        have hclear := dup_step_clears_filename hinv hdup
        have hpre : unique_filenames (st1.db ++
            [new_document (next_id st1.db) (basename inp.pdf_path)
              (dest_path (basename inp.pdf_path)) content.length inp.now]) := by
          intro f
          rw [List.countP_append]
          by_cases hf : f = basename inp.pdf_path
          · subst hf
            rw [hclear]
            simp [new_document]
          · have h0 : (List.countP (fun d => d.filename == f)
                [new_document (next_id st1.db) (basename inp.pdf_path)
                  (dest_path (basename inp.pdf_path)) content.length inp.now]) = 0 := by
              simp [new_document, Ne.symm hf]
            rw [h0]
            have := hst1 f
            have := hinv f
            omega
        rcases heng : inp.engine with ⟨pc, cc⟩ | _ <;>
          · dsimp only
            intro f
            rw [countP_applyEngine]
            exact hpre f

theorem fsLookup_fsWrite (fs : FileSys) (p c : String) :
    fsLookup (fsWrite fs p c) p = some c := by
  simp [fsLookup, fsWrite]

theorem unique_filenames_single (d : PDFDocument) : unique_filenames [d] := by
  intro f
  by_cases h : (d.filename == f) = true <;> simp [List.countP_cons, h]

/-- C2 counterexample: on the concrete duplicate state, the confirmed
duplicate-handling step (the only deletion the ingestion performs) deletes
the record but performs no file operation at all: the old backing file is
still present afterwards, and the full run then merely overwrites it in
place, so the claimed record-and-file removal before the new cycle does not
happen. -/
theorem c2_counterexample :
    dup_step exStDup (basename exInpRepl.pdf_path) exInpRepl.response
      = some { db := [], fs := exFsOld }
  ∧ fsLookup exFsOld (dest_path (basename exInpRepl.pdf_path)) = some ("OLD")
  ∧ (upload_and_process_pdf exInpRepl exStDup).2.fs
      = fsWrite exFsOld (dest_path ("a.pdf")) ("NEW") := by
  decide

/-- C2 amended: on a confirmed replacement, the prior record is deleted
before the new cycle starts, but the backing file is not removed: the
duplicate-handling step leaves the file system untouched, and the copy step
then overwrites the destination path in place; before the engine completes,
the old record is gone, the destination file holds the new source content,
and exactly one record for the filename exists, in processing state. -/
theorem c2_amended_confirmed_replacement (inp : UploadInput) (st : SysState)
    (content : String) (d0 : PDFDocument)
    (_hfs : fsLookup st.fs inp.pdf_path = some content)
    (_hpdf : is_pdf_path inp.pdf_path = true)
    (hex : st.db.find? (fun d => d.filename == basename inp.pdf_path) = some d0)
    (hresp : str_lower inp.response = ("y"))
    (hinv : unique_filenames st.db) :
    ∃ st1, dup_step st (basename inp.pdf_path) inp.response = some st1
      ∧ st1.fs = st.fs
      ∧ st1.db.countP (fun d => d.filename == basename inp.pdf_path) = 0
      ∧ fsLookup (pre_engine st1 (basename inp.pdf_path) content inp.now).1.fs
          (dest_path (basename inp.pdf_path)) = some content
      ∧ (pre_engine st1 (basename inp.pdf_path) content inp.now).1.db.countP
          (fun d => d.filename == basename inp.pdf_path) = 1
      ∧ ∀ d ∈ (pre_engine st1 (basename inp.pdf_path) content inp.now).1.db,
          d.filename = basename inp.pdf_path →
            d.processing = true ∧ d.processed = false := by
  generalize hgen : basename inp.pdf_path = fname at hex ⊢
  have hdup : dup_step st fname inp.response
      = some { st with db := st.db.eraseP (fun d => d.filename == fname) } := by
    simp [dup_step, hex, hresp]
  have h0 : (st.db.eraseP (fun d => d.filename == fname)).countP
      (fun d => d.filename == fname) = 0 := dup_step_clears_filename hinv hdup
  refine ⟨_, hdup, rfl, h0, fsLookup_fsWrite _ _ _, ?_, ?_⟩
  · show ((st.db.eraseP (fun d => d.filename == fname)) ++
        [new_document (next_id (st.db.eraseP (fun d => d.filename == fname))) fname
          (dest_path fname) content.length inp.now]).countP
        (fun d => d.filename == fname) = 1
    rw [List.countP_append, h0]
    simp [new_document]
  · intro d hd hfname
    have hd' : d ∈ (st.db.eraseP (fun d => d.filename == fname)) ++
        [new_document (next_id (st.db.eraseP (fun d => d.filename == fname))) fname
          (dest_path fname) content.length inp.now] := hd
    rcases List.mem_append.mp hd' with hd'' | hd''
    · have := List.countP_eq_zero.mp h0 d hd''
      simp [hfname] at this
    · rcases List.mem_singleton.mp hd'' with rfl
      exact ⟨rfl, rfl⟩

/-- C2 amended witness: the replacement cycle evaluated on the concrete
duplicate state for a.pdf with the prompt confirmed. -/
theorem c2_amended_confirmed_replacement_witness :
    ∃ st1, dup_step exStDup (basename exInpRepl.pdf_path) exInpRepl.response = some st1
      ∧ st1.fs = exStDup.fs
      ∧ st1.db.countP (fun d => d.filename == basename exInpRepl.pdf_path) = 0
      ∧ fsLookup (pre_engine st1 (basename exInpRepl.pdf_path) ("NEW") exInpRepl.now).1.fs
          (dest_path (basename exInpRepl.pdf_path)) = some ("NEW")
      ∧ (pre_engine st1 (basename exInpRepl.pdf_path) ("NEW") exInpRepl.now).1.db.countP
          (fun d => d.filename == basename exInpRepl.pdf_path) = 1
      ∧ ∀ d ∈ (pre_engine st1 (basename exInpRepl.pdf_path) ("NEW") exInpRepl.now).1.db,
          d.filename = basename exInpRepl.pdf_path →
            d.processing = true ∧ d.processed = false :=
  c2_amended_confirmed_replacement exInpRepl exStDup ("NEW") exOldDoc
    (by decide) (by decide) (by decide) (by decide)
    (unique_filenames_single exOldDoc)

/-- C1: when the external processing engine raises during step 6 of an
ingestion that reached it, the run reports failure and the final record for
the filename has processing false and processed false, and the
list_documents rendering of the final store contains its block with the
failed indicator. -/
theorem c1_engine_failure_marks_failed (inp : UploadInput) (st : SysState)
    (content : String) (st1 : SysState)
    (hfs : fsLookup st.fs inp.pdf_path = some content)
    (hpdf : is_pdf_path inp.pdf_path = true)
    (hdup : dup_step st (basename inp.pdf_path) inp.response = some st1)
    (heng : inp.engine = .failure) :
    (upload_and_process_pdf inp st).1 = .processingFailed
  ∧ ∃ d ∈ (upload_and_process_pdf inp st).2.db,
      d.filename = basename inp.pdf_path
      ∧ d.processing = false ∧ d.processed = false
      ∧ list_status_text d = ("failed")
      ∧ list_status_emoji d = ("❌")
      ∧ List.IsInfix (doc_line d).data
          (list_documents_text (upload_and_process_pdf inp st).2.db).data := by
  have hred : upload_and_process_pdf inp st
      = (.processingFailed,
        { db := applyEngine (pre_engine st1 (basename inp.pdf_path) content inp.now).1.db
            (pre_engine st1 (basename inp.pdf_path) content inp.now).2 .failure
          fs := (pre_engine st1 (basename inp.pdf_path) content inp.now).1.fs }) := by
    simp only [upload_and_process_pdf, hfs, hpdf, hdup, heng, Bool.true_eq_false, if_false]
  have hdb : (upload_and_process_pdf inp st).2.db
      = applyEngine st1.db (next_id st1.db) .failure ++
        [{ new_document (next_id st1.db) (basename inp.pdf_path)
            (dest_path (basename inp.pdf_path)) content.length inp.now
            with processing := false, processed := false }] := by
    rw [hred]
    show applyEngine (st1.db ++
        [new_document (next_id st1.db) (basename inp.pdf_path)
          (dest_path (basename inp.pdf_path)) content.length inp.now])
      (next_id st1.db) .failure = _
    simp [applyEngine, List.map_append, new_document]
  have hmem : ({ new_document (next_id st1.db) (basename inp.pdf_path)
      (dest_path (basename inp.pdf_path)) content.length inp.now
      with processing := false, processed := false } : PDFDocument)
      ∈ (upload_and_process_pdf inp st).2.db := by
    rw [hdb]
    exact List.mem_append_right _ (List.mem_singleton_self _)
  refine ⟨by rw [hred], _, hmem, rfl, rfl, rfl, rfl, rfl, doc_line_infix_of_mem hmem⟩

/-- C1 witness: the failing ingestion of docs/bad.pdf evaluated on the
concrete empty store. -/
theorem c1_engine_failure_marks_failed_witness :
    (upload_and_process_pdf exInpFail exStEmpty).1 = .processingFailed
  ∧ ∃ d ∈ (upload_and_process_pdf exInpFail exStEmpty).2.db,
      d.filename = basename exInpFail.pdf_path
      ∧ d.processing = false ∧ d.processed = false
      ∧ list_status_text d = ("failed")
      ∧ list_status_emoji d = ("❌")
      ∧ List.IsInfix (doc_line d).data
          (list_documents_text (upload_and_process_pdf exInpFail exStEmpty).2.db).data :=
  c1_engine_failure_marks_failed exInpFail exStEmpty ("BAD") exStEmpty
    (by decide) (by decide) (by decide) rfl

/-- C8 witness: uniqueness evaluated across the concrete replacement
ingestion of a.pdf, and the empty store between deletion and creation. -/
theorem c8_unique_filenames_witness :
    unique_filenames (upload_and_process_pdf exInpRepl exStDup).2.db
  ∧ ({ db := [], fs := exFsOld } : SysState).db.countP
      (fun d => d.filename == basename exInpRepl.pdf_path) = 0 :=
  ⟨(c8_unique_filenames exInpRepl exStDup
      (by intro f; simp [exStDup, exOldDoc, List.countP_cons]; split <;> simp)).1,
    (c8_unique_filenames exInpRepl exStDup
      (by intro f; simp [exStDup, exOldDoc, List.countP_cons]; split <;> simp)).2
      { db := [], fs := exFsOld } (by decide)⟩

end PdfRag
